import Mathlib

/-!
Shallow embedding of `telegram/files/inputmedia.py`: the five InputMedia
record kinds (animation, photo, video, audio, document), their constructors,
and their serialization to a wire-format key/value mapping.

The constructors and `InputMedia.to_dict` are translated line by line from
the source module. Collaborators that the module imports from elsewhere in
the library (the base serializer `TelegramObject.to_dict`, the helper
`parse_file_input`, the `InputFile` wrapper, the `MessageEntity`,
`Animation`, `Video`, `Audio`, `PhotoSize` and `Document` platform classes)
are not among the sources and are modelled from the specification, as marked
on each definition.

Python conventions captured by the embedding:
  - an optional argument left out is `none`; `some x` means the caller
    passed `x` (so `some 0`, `some ""` model explicitly passed falsy values);
  - Python truthiness (`if width:` etc.) is modelled by the `...Truthy`
    functions: `0`, the empty string, `False`, the empty list and the empty
    byte payload are falsy;
  - an attribute that is never assigned (or assigned `None`) is an unset
    field, i.e. `none`; the serialized mapping is an association list of
    string keys and JSON-like values.
-/

/-- Locally supplied upload content: a byte payload, an open file handle
(identified opaquely), or a filesystem path. -/
inductive FilePayload where
  | bytes : List Nat → FilePayload
  | handle : Nat → FilePayload
  | path : String → FilePayload
  deriving DecidableEq

/-- Modelled from the spec: the attachment-tagged reference (`InputFile`,
not among the sources) wrapping a locally supplied byte payload or file
handle that must be multipart-encoded by the transport layer; it carries
the payload, an optional custom filename, and the attachment tag. -/
structure InputFile where
  payload : FilePayload
  filename : Option String
  attach : Bool
  deriving DecidableEq

/-- The `media` argument shapes that are not platform metadata objects:
a string (remote file identifier or HTTP URL), a local payload, or an
input of an unrecognized type (carrying a description of itself). -/
inductive FileInput where
  | str : String → FileInput
  | payload : FilePayload → FileInput
  | invalid : String → FileInput
  deriving DecidableEq

/-- The full `media` argument of a constructor: either one of the
`FileInput` shapes or the recognized platform metadata object `α`. -/
inductive MediaArg (α : Type) where
  | fileInput : FileInput → MediaArg α
  | obj : α → MediaArg α

/-- The value a constructed record stores in its `media` field: a plain
string, or an attachment-tagged `InputFile`. -/
inductive MediaRef where
  | str : String → MediaRef
  | file : InputFile → MediaRef
  deriving DecidableEq

/-- Modelled from the spec: a caption entity (`MessageEntity`, not among
the sources) is a structured annotation with a kind, an offset and a
length. -/
structure MessageEntity where
  type : String
  offset : Int
  length : Int
  deriving DecidableEq

/-- JSON-like values of the serialized mapping. `attach` is an
attachment-tagged reference (not a plain string); `entities` is a raw,
not yet individually serialized, caption entity list as the base
serializer would store it. -/
inductive Value where
  | str : String → Value
  | int : Int → Value
  | bool : Bool → Value
  | attach : InputFile → Value
  | entities : List MessageEntity → Value
  | arr : List Value → Value
  | obj : List (String × Value) → Value

/-- Modelled from the spec: the serialization of a single caption entity
into its own mapping (kind, offset, length). -/
def MessageEntity.to_dict (e : MessageEntity) : Value :=
  Value.obj [("type", Value.str e.type), ("offset", Value.int e.offset),
             ("length", Value.int e.length)]

/-- Modelled from the spec: a previously fetched `Animation` metadata
record, carrying its remote identifier and its width, height and
duration. -/
structure Animation where
  file_id : String
  width : Int
  height : Int
  duration : Int
  deriving DecidableEq

/-- Modelled from the spec: a previously fetched `Video` metadata record,
carrying its remote identifier and its width, height and duration. -/
structure Video where
  file_id : String
  width : Int
  height : Int
  duration : Int
  deriving DecidableEq

/-- Modelled from the spec: a previously fetched `Audio` metadata record,
carrying its remote identifier, its duration, and its possibly absent
performer and title. -/
structure Audio where
  file_id : String
  duration : Int
  performer : Option String
  title : Option String
  deriving DecidableEq

/-- Modelled from the spec: a previously fetched `PhotoSize` metadata
record, carrying its remote identifier. -/
structure PhotoSize where
  file_id : String
  deriving DecidableEq

/-- Modelled from the spec: a previously fetched `Document` metadata
record, carrying its remote identifier. -/
structure Document where
  file_id : String
  deriving DecidableEq

/-- Python truthiness of an optional int argument: absent and `0` are
falsy. -/
def intTruthy : Option Int → Bool
  | none => false
  | some n => !(n == 0)

/-- Python truthiness of an optional string argument: absent and the
empty string are falsy. -/
def strTruthy : Option String → Bool
  | none => false
  | some s => !(s == "")

/-- Python truthiness of an optional bool argument: absent and `False`
are falsy. -/
def boolTruthy : Option Bool → Bool
  | none => false
  | some b => b

/-- Python truthiness of a local payload: an empty byte string is falsy,
file handles and paths are truthy. -/
def payloadTruthy : FilePayload → Bool
  | FilePayload.bytes l => !l.isEmpty
  | FilePayload.handle _ => true
  | FilePayload.path _ => true

/-- Python truthiness of an optional thumbnail payload argument. -/
def thumbTruthy : Option FilePayload → Bool
  | none => false
  | some p => payloadTruthy p

/-- Python truthiness of an optional caption entity list argument: absent
and the empty list are falsy. -/
def ceTruthy : Option (List MessageEntity) → Bool
  | none => false
  | some l => !l.isEmpty

/-- The source pattern `if x: self.x = x` applied to an int attribute
whose current value is `cur`: a truthy argument overrides, a falsy one
leaves the attribute as it was. -/
def overrideInt (ov cur : Option Int) : Option Int :=
  if intTruthy ov then ov else cur

/-- The source pattern `if x: self.x = x` for a string attribute. -/
def overrideStr (ov cur : Option String) : Option String :=
  if strTruthy ov then ov else cur

/-- The source pattern `if x: self.x = x` for a bool attribute. -/
def overrideBool (ov cur : Option Bool) : Option Bool :=
  if boolTruthy ov then ov else cur

/-- Modelled from the spec: `parse_file_input` (from the utils helpers
module, not among the sources) passes strings through unchanged, wraps
byte payloads and file handles into an attachment-tagged `InputFile`
carrying the custom filename, extracts the remote identifier from a
recognized platform object (when a recognized type with its identifier
projection is given), and fails fast with a descriptive type error on
any other input. -/
def parse_file_input (α : Type) (file_input : MediaArg α)
    (tg_type : Option (α → String)) (attach : Bool)
    (filename : Option String) : Except String MediaRef :=
  match file_input with
  | MediaArg.fileInput (FileInput.str s) => Except.ok (MediaRef.str s)
  | MediaArg.fileInput (FileInput.payload p) =>
      Except.ok (MediaRef.file { payload := p, filename := filename, attach := attach })
  | MediaArg.fileInput (FileInput.invalid d) =>
      Except.error ("invalid file input of type " ++ d)
  | MediaArg.obj a =>
      match tg_type with
      | some file_id_of => Except.ok (MediaRef.str (file_id_of a))
      | none => Except.error "unrecognized object input"

/-- The source pattern `if thumb: self.thumb = parse_file_input(thumb,
attach=True)`: a truthy thumbnail payload is wrapped into an
attachment-tagged `InputFile` (with no custom filename), a falsy or
absent one leaves the attribute unset. -/
def setThumb : Option FilePayload → Option InputFile
  | none => none
  | some p =>
      if payloadTruthy p then
        some { payload := p, filename := none, attach := true }
      else none

/-- An InputMediaAnimation record: the attributes the constructor can
set, unset ones being `none`. Field order follows attribute assignment
order in the source. -/
structure InputMediaAnimation where
  type : String
  media : MediaRef
  width : Option Int
  height : Option Int
  duration : Option Int
  thumb : Option InputFile
  caption : Option String
  parse_mode : Option String
  caption_entities : Option (List MessageEntity)
  deriving DecidableEq

/-- An InputMediaPhoto record. -/
structure InputMediaPhoto where
  type : String
  media : MediaRef
  caption : Option String
  parse_mode : Option String
  caption_entities : Option (List MessageEntity)
  deriving DecidableEq

/-- An InputMediaVideo record. -/
structure InputMediaVideo where
  type : String
  media : MediaRef
  width : Option Int
  height : Option Int
  duration : Option Int
  thumb : Option InputFile
  caption : Option String
  parse_mode : Option String
  caption_entities : Option (List MessageEntity)
  supports_streaming : Option Bool
  deriving DecidableEq

/-- An InputMediaAudio record. -/
structure InputMediaAudio where
  type : String
  media : MediaRef
  duration : Option Int
  performer : Option String
  title : Option String
  thumb : Option InputFile
  caption : Option String
  parse_mode : Option String
  caption_entities : Option (List MessageEntity)
  deriving DecidableEq

/-- An InputMediaDocument record. -/
structure InputMediaDocument where
  type : String
  media : MediaRef
  thumb : Option InputFile
  caption : Option String
  parse_mode : Option String
  caption_entities : Option (List MessageEntity)
  disable_content_type_detection : Option Bool
  deriving DecidableEq

/-- `InputMediaAnimation.__init__`, translated from the source. When
`media` is an `Animation` object, the remote identifier and the width,
height and duration are copied from it; truthy explicit arguments then
override the copied values. Otherwise `media` goes through
`parse_file_input` with the attach tag. Parameters appear in source
order. -/
def InputMediaAnimation.init (media : MediaArg Animation)
    (thumb : Option FilePayload) (caption : Option String)
    (parse_mode : Option String) (width height duration : Option Int)
    (caption_entities : Option (List MessageEntity))
    (filename : Option String) : Except String InputMediaAnimation :=
  match media with
  | MediaArg.obj a =>
      Except.ok
        { type := "animation"
          media := MediaRef.str a.file_id
          width := overrideInt width (some a.width)
          height := overrideInt height (some a.height)
          duration := overrideInt duration (some a.duration)
          thumb := setThumb thumb
          caption := overrideStr caption none
          parse_mode := parse_mode
          caption_entities := caption_entities }
  | MediaArg.fileInput fi =>
      match parse_file_input Animation (MediaArg.fileInput fi) none true filename with
      | Except.error e => Except.error e
      | Except.ok m =>
          Except.ok
            { type := "animation"
              media := m
              width := overrideInt width none
              height := overrideInt height none
              duration := overrideInt duration none
              thumb := setThumb thumb
              caption := overrideStr caption none
              parse_mode := parse_mode
              caption_entities := caption_entities }

/-- `InputMediaPhoto.__init__`, translated from the source: `media` goes
through `parse_file_input` with `PhotoSize` as the recognized type. -/
def InputMediaPhoto.init (media : MediaArg PhotoSize)
    (caption : Option String) (parse_mode : Option String)
    (caption_entities : Option (List MessageEntity))
    (filename : Option String) : Except String InputMediaPhoto :=
  match parse_file_input PhotoSize media (some PhotoSize.file_id) true filename with
  | Except.error e => Except.error e
  | Except.ok m =>
      Except.ok
        { type := "photo"
          media := m
          caption := overrideStr caption none
          parse_mode := parse_mode
          caption_entities := caption_entities }

/-- `InputMediaVideo.__init__`, translated from the source. When `media`
is a `Video` object, the remote identifier and the width, height and
duration are copied from it; truthy explicit arguments then override the
copied values. `supports_streaming` is set only when truthy. -/
def InputMediaVideo.init (media : MediaArg Video)
    (caption : Option String) (width height duration : Option Int)
    (supports_streaming : Option Bool) (parse_mode : Option String)
    (thumb : Option FilePayload)
    (caption_entities : Option (List MessageEntity))
    (filename : Option String) : Except String InputMediaVideo :=
  match media with
  | MediaArg.obj v =>
      Except.ok
        { type := "video"
          media := MediaRef.str v.file_id
          width := overrideInt width (some v.width)
          height := overrideInt height (some v.height)
          duration := overrideInt duration (some v.duration)
          thumb := setThumb thumb
          caption := overrideStr caption none
          parse_mode := parse_mode
          caption_entities := caption_entities
          supports_streaming := overrideBool supports_streaming none }
  | MediaArg.fileInput fi =>
      match parse_file_input Video (MediaArg.fileInput fi) none true filename with
      | Except.error e => Except.error e
      | Except.ok m =>
          Except.ok
            { type := "video"
              media := m
              width := overrideInt width none
              height := overrideInt height none
              duration := overrideInt duration none
              thumb := setThumb thumb
              caption := overrideStr caption none
              parse_mode := parse_mode
              caption_entities := caption_entities
              supports_streaming := overrideBool supports_streaming none }

/-- `InputMediaAudio.__init__`, translated from the source. When `media`
is an `Audio` object, the remote identifier, duration, performer and
title are copied from it (performer and title possibly as `none`);
truthy explicit arguments then override the copied values. -/
def InputMediaAudio.init (media : MediaArg Audio)
    (thumb : Option FilePayload) (caption : Option String)
    (parse_mode : Option String) (duration : Option Int)
    (performer title : Option String)
    (caption_entities : Option (List MessageEntity))
    (filename : Option String) : Except String InputMediaAudio :=
  match media with
  | MediaArg.obj a =>
      Except.ok
        { type := "audio"
          media := MediaRef.str a.file_id
          duration := overrideInt duration (some a.duration)
          performer := overrideStr performer a.performer
          title := overrideStr title a.title
          thumb := setThumb thumb
          caption := overrideStr caption none
          parse_mode := parse_mode
          caption_entities := caption_entities }
  | MediaArg.fileInput fi =>
      match parse_file_input Audio (MediaArg.fileInput fi) none true filename with
      | Except.error e => Except.error e
      | Except.ok m =>
          Except.ok
            { type := "audio"
              media := m
              duration := overrideInt duration none
              performer := overrideStr performer none
              title := overrideStr title none
              thumb := setThumb thumb
              caption := overrideStr caption none
              parse_mode := parse_mode
              caption_entities := caption_entities }

/-- `InputMediaDocument.__init__`, translated from the source: `media`
goes through `parse_file_input` with `Document` as the recognized type;
`disable_content_type_detection` is assigned unconditionally (so an
explicit `False` is stored, unlike the truthiness-guarded fields). -/
def InputMediaDocument.init (media : MediaArg Document)
    (thumb : Option FilePayload) (caption : Option String)
    (parse_mode : Option String)
    (disable_content_type_detection : Option Bool)
    (caption_entities : Option (List MessageEntity))
    (filename : Option String) : Except String InputMediaDocument :=
  match parse_file_input Document media (some Document.file_id) true filename with
  | Except.error e => Except.error e
  | Except.ok m =>
      Except.ok
        { type := "document"
          media := m
          thumb := setThumb thumb
          caption := overrideStr caption none
          parse_mode := parse_mode
          caption_entities := caption_entities
          disable_content_type_detection := disable_content_type_detection }

/-- A mapping entry for an optional int field: present iff the field is
set. -/
def optInt (k : String) : Option Int → List (String × Value)
  | none => []
  | some n => [(k, Value.int n)]

/-- A mapping entry for an optional string field: present iff the field
is set. -/
def optStr (k : String) : Option String → List (String × Value)
  | none => []
  | some s => [(k, Value.str s)]

/-- A mapping entry for an optional bool field: present iff the field is
set. -/
def optBool (k : String) : Option Bool → List (String × Value)
  | none => []
  | some b => [(k, Value.bool b)]

/-- A mapping entry for an optional attachment field: present iff the
field is set. -/
def optAttach (k : String) : Option InputFile → List (String × Value)
  | none => []
  | some f => [(k, Value.attach f)]

/-- A mapping entry for the optional caption entity list as the base
serializer stores it: the raw entity list, present iff the field is
set. -/
def optEntities (k : String) : Option (List MessageEntity) → List (String × Value)
  | none => []
  | some l => [(k, Value.entities l)]

/-- The serialized `media` value: a plain string for a remote reference,
the attachment-tagged reference for a local upload. -/
def mediaValue : MediaRef → Value
  | MediaRef.str s => Value.str s
  | MediaRef.file f => Value.attach f

/-- The key list of a mapping. -/
def keys (d : List (String × Value)) : List String :=
  d.map Prod.fst

/-- Dictionary lookup on the mapping. -/
def lookupKey : List (String × Value) → String → Option Value
  | [], _ => none
  | (k1, v) :: rest, k => if k1 == k then some v else lookupKey rest k

/-- Dictionary key membership on the mapping. -/
def containsKey : List (String × Value) → String → Bool
  | [], _ => false
  | (k1, _) :: rest, k => (k1 == k) || containsKey rest k

/-- Dictionary assignment `data[k] = v`: replace the value at an existing
key, otherwise append the new entry. -/
def setItem : List (String × Value) → String → Value → List (String × Value)
  | [], k, v => [(k, v)]
  | (k1, v1) :: rest, k, v =>
      if k1 == k then (k, v) :: rest else (k1, v1) :: setItem rest k v

/-- Whether an `Except` result is a success. -/
def isOkB {α : Type} : Except String α → Bool
  | Except.ok _ => true
  | Except.error _ => false

/-- Modelled from the spec: the base serializer (`TelegramObject.to_dict`,
not among the sources) includes every set field by name and omits unset
optional fields entirely; the caption entity list, when set, is stored as
its raw value (the derived serializer below expands it). Field order
follows attribute order. -/
def InputMediaAnimation.baseToDict (r : InputMediaAnimation) : List (String × Value) :=
  [("type", Value.str r.type), ("media", mediaValue r.media)]
    ++ optInt "width" r.width ++ optInt "height" r.height
    ++ optInt "duration" r.duration ++ optAttach "thumb" r.thumb
    ++ optStr "caption" r.caption ++ optStr "parse_mode" r.parse_mode
    ++ optEntities "caption_entities" r.caption_entities

/-- Modelled from the spec: the base serializer for a photo record (see
`InputMediaAnimation.baseToDict`). -/
def InputMediaPhoto.baseToDict (r : InputMediaPhoto) : List (String × Value) :=
  [("type", Value.str r.type), ("media", mediaValue r.media)]
    ++ optStr "caption" r.caption ++ optStr "parse_mode" r.parse_mode
    ++ optEntities "caption_entities" r.caption_entities

/-- Modelled from the spec: the base serializer for a video record (see
`InputMediaAnimation.baseToDict`). -/
def InputMediaVideo.baseToDict (r : InputMediaVideo) : List (String × Value) :=
  [("type", Value.str r.type), ("media", mediaValue r.media)]
    ++ optInt "width" r.width ++ optInt "height" r.height
    ++ optInt "duration" r.duration ++ optAttach "thumb" r.thumb
    ++ optStr "caption" r.caption ++ optStr "parse_mode" r.parse_mode
    ++ optEntities "caption_entities" r.caption_entities
    ++ optBool "supports_streaming" r.supports_streaming

/-- Modelled from the spec: the base serializer for an audio record (see
`InputMediaAnimation.baseToDict`). -/
def InputMediaAudio.baseToDict (r : InputMediaAudio) : List (String × Value) :=
  [("type", Value.str r.type), ("media", mediaValue r.media)]
    ++ optInt "duration" r.duration ++ optStr "performer" r.performer
    ++ optStr "title" r.title ++ optAttach "thumb" r.thumb
    ++ optStr "caption" r.caption ++ optStr "parse_mode" r.parse_mode
    ++ optEntities "caption_entities" r.caption_entities

/-- Modelled from the spec: the base serializer for a document record
(see `InputMediaAnimation.baseToDict`). -/
def InputMediaDocument.baseToDict (r : InputMediaDocument) : List (String × Value) :=
  [("type", Value.str r.type), ("media", mediaValue r.media)]
    ++ optAttach "thumb" r.thumb ++ optStr "caption" r.caption
    ++ optStr "parse_mode" r.parse_mode
    ++ optEntities "caption_entities" r.caption_entities
    ++ optBool "disable_content_type_detection" r.disable_content_type_detection

/-- `InputMedia.to_dict` from the source: starting from the base
serialization, when the caption entity list is truthy (set and
non-empty), `data["caption_entities"]` is assigned the list of each
entity's own serialization; otherwise the data is returned as is. -/
def InputMedia.to_dict (caption_entities : Option (List MessageEntity))
    (data : List (String × Value)) : List (String × Value) :=
  if ceTruthy caption_entities then
    setItem data "caption_entities"
      (Value.arr ((caption_entities.getD []).map MessageEntity.to_dict))
  else data

/-- Full serialization of an animation record. -/
def InputMediaAnimation.to_dict (r : InputMediaAnimation) : List (String × Value) :=
  InputMedia.to_dict r.caption_entities (InputMediaAnimation.baseToDict r)

/-- Full serialization of a photo record. -/
def InputMediaPhoto.to_dict (r : InputMediaPhoto) : List (String × Value) :=
  InputMedia.to_dict r.caption_entities (InputMediaPhoto.baseToDict r)

/-- Full serialization of a video record. -/
def InputMediaVideo.to_dict (r : InputMediaVideo) : List (String × Value) :=
  InputMedia.to_dict r.caption_entities (InputMediaVideo.baseToDict r)

/-- Full serialization of an audio record. -/
def InputMediaAudio.to_dict (r : InputMediaAudio) : List (String × Value) :=
  InputMedia.to_dict r.caption_entities (InputMediaAudio.baseToDict r)

/-- Full serialization of a document record. -/
def InputMediaDocument.to_dict (r : InputMediaDocument) : List (String × Value) :=
  InputMedia.to_dict r.caption_entities (InputMediaDocument.baseToDict r)

/-- Serialization as a state-passing operation, making explicit that the
source method reads the record but contains no assignment to it: the
returned record is the input record, paired with the produced mapping. -/
def runToDict {α : Type} (serialize : α → List (String × Value))
    (self : α) : α × List (String × Value) :=
  (self, serialize self)

/-- The value the full serializer leaves under the caption_entities key
as a function of the caption entity field: absent field, no entry; empty
list, the raw empty entity list the base serializer stored; non-empty
list, the elementwise serialization. -/
def ceDictValue : Option (List MessageEntity) → Option Value
  | none => none
  | some [] => some (Value.entities [])
  | some (e :: es) => some (Value.arr ((e :: es).map MessageEntity.to_dict))

theorem keys_append (a b : List (String × Value)) : keys (a ++ b) = keys a ++ keys b := by
  simp [keys]

theorem containsKey_append (a b : List (String × Value)) (k : String) :
    containsKey (a ++ b) k = (containsKey a k || containsKey b k) := by
  induction a with
  | nil => simp [containsKey]
  | cons p rest ih => cases p with
    | mk k1 v1 => simp [containsKey, ih, Bool.or_assoc]

theorem lookupKey_append (a b : List (String × Value)) (k : String) :
    lookupKey (a ++ b) k = (lookupKey a k).orElse (fun _ => lookupKey b k) := by
  induction a with
  | nil => simp [lookupKey, Option.orElse]
  | cons p rest ih => cases p with
    | mk k1 v1 =>
      by_cases h : (k1 == k) = true
      · simp [lookupKey, h, Option.orElse]
      · simp only [List.cons_append, lookupKey, if_neg h]
        exact ih

theorem lookupKey_setItem_self (d : List (String × Value)) (k : String) (v : Value) :
    lookupKey (setItem d k v) k = some v := by
  induction d with
  | nil => simp [setItem, lookupKey]
  | cons p rest ih => cases p with
    | mk k1 v1 =>
      by_cases h : (k1 == k) = true
      · simp [setItem, h, lookupKey]
      · simp [setItem, h, lookupKey, ih]

theorem lookupKey_setItem_ne (d : List (String × Value)) (k k2 : String) (v : Value)
    (h : (k == k2) = false) : lookupKey (setItem d k v) k2 = lookupKey d k2 := by
  induction d with
  | nil => simp [setItem, lookupKey, h]
  | cons p rest ih => cases p with
    | mk k1 v1 =>
      by_cases h1 : (k1 == k) = true
      · have hk : k1 = k := eq_of_beq h1
        subst hk
        simp [setItem, lookupKey, h]
      · simp [setItem, h1, lookupKey, ih]

theorem keys_setItem_of_contains (d : List (String × Value)) (k : String) (v : Value)
    (h : containsKey d k = true) : keys (setItem d k v) = keys d := by
  induction d with
  | nil => simp [containsKey] at h
  | cons p rest ih => cases p with
    | mk k1 v1 =>
      by_cases h1 : (k1 == k) = true
      · have hk : k1 = k := eq_of_beq h1
        subst hk
        simp [setItem, keys]
      · simp only [containsKey, h1, Bool.false_or] at h
        simp [setItem, h1, keys] at ih ⊢
        exact ih h

theorem containsKey_optInt_ne (k1 k : String) (x : Option Int) (h : (k1 == k) = false) :
    containsKey (optInt k1 x) k = false := by
  cases x <;> simp [optInt, containsKey, h]

theorem containsKey_optStr_ne (k1 k : String) (x : Option String) (h : (k1 == k) = false) :
    containsKey (optStr k1 x) k = false := by
  cases x <;> simp [optStr, containsKey, h]

theorem containsKey_optBool_ne (k1 k : String) (x : Option Bool) (h : (k1 == k) = false) :
    containsKey (optBool k1 x) k = false := by
  cases x <;> simp [optBool, containsKey, h]

theorem containsKey_optAttach_ne (k1 k : String) (x : Option InputFile) (h : (k1 == k) = false) :
    containsKey (optAttach k1 x) k = false := by
  cases x <;> simp [optAttach, containsKey, h]

theorem containsKey_optEntities_self (k : String) (ce : Option (List MessageEntity)) :
    containsKey (optEntities k ce) k = ce.isSome := by
  cases ce <;> simp [optEntities, containsKey]

theorem lookupKey_optInt_ne (k1 k : String) (x : Option Int) (h : (k1 == k) = false) :
    lookupKey (optInt k1 x) k = none := by
  cases x <;> simp [optInt, lookupKey, h]

theorem lookupKey_optStr_ne (k1 k : String) (x : Option String) (h : (k1 == k) = false) :
    lookupKey (optStr k1 x) k = none := by
  cases x <;> simp [optStr, lookupKey, h]

theorem lookupKey_optBool_ne (k1 k : String) (x : Option Bool) (h : (k1 == k) = false) :
    lookupKey (optBool k1 x) k = none := by
  cases x <;> simp [optBool, lookupKey, h]

theorem lookupKey_optAttach_ne (k1 k : String) (x : Option InputFile) (h : (k1 == k) = false) :
    lookupKey (optAttach k1 x) k = none := by
  cases x <;> simp [optAttach, lookupKey, h]

theorem lookupKey_optEntities_self (k : String) (ce : Option (List MessageEntity)) :
    lookupKey (optEntities k ce) k = ce.map Value.entities := by
  cases ce <;> simp [optEntities, lookupKey]

theorem lookupKey_to_dict_ne (ce : Option (List MessageEntity))
    (d : List (String × Value)) (k : String)
    (h : (("caption_entities" : String) == k) = false) :
    lookupKey (InputMedia.to_dict ce d) k = lookupKey d k := by
  unfold InputMedia.to_dict
  by_cases hce : ceTruthy ce = true
  · rw [if_pos hce, lookupKey_setItem_ne _ _ _ _ h]
  · rw [if_neg hce]

theorem isSome_of_ceTruthy (ce : Option (List MessageEntity)) (h : ceTruthy ce = true) :
    ce.isSome = true := by
  cases ce with
  | none => simp [ceTruthy] at h
  | some l => rfl

theorem keys_to_dict_of_base (ce : Option (List MessageEntity))
    (d : List (String × Value))
    (h : containsKey d "caption_entities" = ce.isSome) :
    keys (InputMedia.to_dict ce d) = keys d := by
  unfold InputMedia.to_dict
  by_cases hce : ceTruthy ce = true
  · rw [if_pos hce, keys_setItem_of_contains _ _ _ (h.trans (isSome_of_ceTruthy ce hce))]
  · rw [if_neg hce]


theorem containsKey_typeMedia (a b : Value) :
    containsKey [("type", a), ("media", b)] "caption_entities" = false := rfl

theorem containsKey_base_anim (r : InputMediaAnimation) :
    containsKey (InputMediaAnimation.baseToDict r) "caption_entities" =
      r.caption_entities.isSome := by
  unfold InputMediaAnimation.baseToDict
  simp only [containsKey_append, containsKey_typeMedia,
    containsKey_optInt_ne "width" "caption_entities" r.width rfl,
    containsKey_optInt_ne "height" "caption_entities" r.height rfl,
    containsKey_optInt_ne "duration" "caption_entities" r.duration rfl,
    containsKey_optAttach_ne "thumb" "caption_entities" r.thumb rfl,
    containsKey_optStr_ne "caption" "caption_entities" r.caption rfl,
    containsKey_optStr_ne "parse_mode" "caption_entities" r.parse_mode rfl,
    containsKey_optEntities_self, Bool.false_or, Bool.or_false]

theorem containsKey_base_photo (r : InputMediaPhoto) :
    containsKey (InputMediaPhoto.baseToDict r) "caption_entities" =
      r.caption_entities.isSome := by
  unfold InputMediaPhoto.baseToDict
  simp only [containsKey_append, containsKey_typeMedia,
    containsKey_optStr_ne "caption" "caption_entities" r.caption rfl,
    containsKey_optStr_ne "parse_mode" "caption_entities" r.parse_mode rfl,
    containsKey_optEntities_self, Bool.false_or, Bool.or_false]

theorem containsKey_base_video (r : InputMediaVideo) :
    containsKey (InputMediaVideo.baseToDict r) "caption_entities" =
      r.caption_entities.isSome := by
  unfold InputMediaVideo.baseToDict
  simp only [containsKey_append, containsKey_typeMedia,
    containsKey_optInt_ne "width" "caption_entities" r.width rfl,
    containsKey_optInt_ne "height" "caption_entities" r.height rfl,
    containsKey_optInt_ne "duration" "caption_entities" r.duration rfl,
    containsKey_optAttach_ne "thumb" "caption_entities" r.thumb rfl,
    containsKey_optStr_ne "caption" "caption_entities" r.caption rfl,
    containsKey_optStr_ne "parse_mode" "caption_entities" r.parse_mode rfl,
    containsKey_optBool_ne "supports_streaming" "caption_entities" r.supports_streaming rfl,
    containsKey_optEntities_self, Bool.false_or, Bool.or_false]

theorem containsKey_base_audio (r : InputMediaAudio) :
    containsKey (InputMediaAudio.baseToDict r) "caption_entities" =
      r.caption_entities.isSome := by
  unfold InputMediaAudio.baseToDict
  simp only [containsKey_append, containsKey_typeMedia,
    containsKey_optInt_ne "duration" "caption_entities" r.duration rfl,
    containsKey_optStr_ne "performer" "caption_entities" r.performer rfl,
    containsKey_optStr_ne "title" "caption_entities" r.title rfl,
    containsKey_optAttach_ne "thumb" "caption_entities" r.thumb rfl,
    containsKey_optStr_ne "caption" "caption_entities" r.caption rfl,
    containsKey_optStr_ne "parse_mode" "caption_entities" r.parse_mode rfl,
    containsKey_optEntities_self, Bool.false_or, Bool.or_false]

theorem containsKey_base_document (r : InputMediaDocument) :
    containsKey (InputMediaDocument.baseToDict r) "caption_entities" =
      r.caption_entities.isSome := by
  unfold InputMediaDocument.baseToDict
  simp only [containsKey_append, containsKey_typeMedia,
    containsKey_optAttach_ne "thumb" "caption_entities" r.thumb rfl,
    containsKey_optStr_ne "caption" "caption_entities" r.caption rfl,
    containsKey_optStr_ne "parse_mode" "caption_entities" r.parse_mode rfl,
    containsKey_optBool_ne "disable_content_type_detection" "caption_entities"
      r.disable_content_type_detection rfl,
    containsKey_optEntities_self, Bool.false_or, Bool.or_false]

theorem keys_to_dict_anim (r : InputMediaAnimation) :
    keys (InputMediaAnimation.to_dict r) = keys (InputMediaAnimation.baseToDict r) :=
  keys_to_dict_of_base _ _ (containsKey_base_anim r)

theorem keys_to_dict_photo (r : InputMediaPhoto) :
    keys (InputMediaPhoto.to_dict r) = keys (InputMediaPhoto.baseToDict r) :=
  keys_to_dict_of_base _ _ (containsKey_base_photo r)

theorem keys_to_dict_video (r : InputMediaVideo) :
    keys (InputMediaVideo.to_dict r) = keys (InputMediaVideo.baseToDict r) :=
  keys_to_dict_of_base _ _ (containsKey_base_video r)

theorem keys_to_dict_audio (r : InputMediaAudio) :
    keys (InputMediaAudio.to_dict r) = keys (InputMediaAudio.baseToDict r) :=
  keys_to_dict_of_base _ _ (containsKey_base_audio r)

theorem keys_to_dict_document (r : InputMediaDocument) :
    keys (InputMediaDocument.to_dict r) = keys (InputMediaDocument.baseToDict r) :=
  keys_to_dict_of_base _ _ (containsKey_base_document r)

theorem keys_optInt_override (k : String) (w : Option Int) :
    keys (optInt k (overrideInt w none)) = if intTruthy w then [k] else [] := by
  unfold overrideInt
  cases hw : intTruthy w
  · simp [optInt, keys]
  · cases w with
    | none => simp [intTruthy] at hw
    | some n => simp [optInt, keys]

theorem keys_optInt_override_some (k : String) (w : Option Int) (x : Int) :
    keys (optInt k (overrideInt w (some x))) = [k] := by
  unfold overrideInt
  cases hw : intTruthy w
  · simp [optInt, keys]
  · cases w with
    | none => simp [intTruthy] at hw
    | some n => simp [optInt, keys]

theorem keys_optStr_override (k : String) (c : Option String) :
    keys (optStr k (overrideStr c none)) = if strTruthy c then [k] else [] := by
  unfold overrideStr
  cases hc : strTruthy c
  · simp [optStr, keys]
  · cases c with
    | none => simp [strTruthy] at hc
    | some s => simp [optStr, keys]

theorem keys_optStr_override_cur (k : String) (c cur : Option String) :
    keys (optStr k (overrideStr c cur)) =
      if strTruthy c then [k] else if cur.isSome then [k] else [] := by
  unfold overrideStr
  cases hc : strTruthy c
  · cases cur <;> simp [optStr, keys]
  · cases c with
    | none => simp [strTruthy] at hc
    | some s => simp [optStr, keys]

theorem keys_optBool_override (k : String) (b : Option Bool) :
    keys (optBool k (overrideBool b none)) = if boolTruthy b then [k] else [] := by
  unfold overrideBool
  cases hb : boolTruthy b
  · simp [optBool, keys]
  · cases b with
    | none => simp [boolTruthy] at hb
    | some x => simp [optBool, keys]

theorem keys_optAttach_setThumb (k : String) (th : Option FilePayload) :
    keys (optAttach k (setThumb th)) = if thumbTruthy th then [k] else [] := by
  cases th with
  | none => simp [setThumb, thumbTruthy, optAttach, keys]
  | some p =>
      unfold setThumb thumbTruthy
      cases hp : payloadTruthy p <;> simp [optAttach, keys, hp]

theorem keys_optStr_plain (k : String) (f : Option String) :
    keys (optStr k f) = if f.isSome then [k] else [] := by
  cases f <;> simp [optStr, keys]

theorem keys_optBool_plain (k : String) (f : Option Bool) :
    keys (optBool k f) = if f.isSome then [k] else [] := by
  cases f <;> simp [optBool, keys]

theorem keys_optEntities_plain (k : String) (f : Option (List MessageEntity)) :
    keys (optEntities k f) = if f.isSome then [k] else [] := by
  cases f <;> simp [optEntities, keys]

theorem keys_typeMedia (a b : Value) :
    keys [("type", a), ("media", b)] = ["type", "media"] := rfl

/-- C1 (amended): for InputMediaAnimation and InputMediaVideo constructed
from a metadata object, width/height/duration equal the supplied override
whenever the override is truthy (nonzero), and the metadata object values
otherwise; likewise duration/performer/title for InputMediaAudio with
truthy (nonzero or nonempty) overrides. A falsy supplied override (0 or
the empty string) does not take precedence: the copied value stays. -/
theorem C1_metadata_copy_and_override :
    (∀ (a : Animation) (th : Option FilePayload) (c pm : Option String)
        (w h d : Option Int) (ce : Option (List MessageEntity)) (fn : Option String),
      (InputMediaAnimation.init (MediaArg.obj a) th c pm w h d ce fn).map
          (fun r => (r.width, r.height, r.duration)) =
        Except.ok (if intTruthy w then w else some a.width,
                   if intTruthy h then h else some a.height,
                   if intTruthy d then d else some a.duration)) ∧
    (∀ (v : Video) (c : Option String) (w h d : Option Int) (ss : Option Bool)
        (pm : Option String) (th : Option FilePayload)
        (ce : Option (List MessageEntity)) (fn : Option String),
      (InputMediaVideo.init (MediaArg.obj v) c w h d ss pm th ce fn).map
          (fun r => (r.width, r.height, r.duration)) =
        Except.ok (if intTruthy w then w else some v.width,
                   if intTruthy h then h else some v.height,
                   if intTruthy d then d else some v.duration)) ∧
    (∀ (a : Audio) (th : Option FilePayload) (c pm : Option String)
        (d : Option Int) (p t : Option String)
        (ce : Option (List MessageEntity)) (fn : Option String),
      (InputMediaAudio.init (MediaArg.obj a) th c pm d p t ce fn).map
          (fun r => (r.duration, r.performer, r.title)) =
        Except.ok (if intTruthy d then d else some a.duration,
                   if strTruthy p then p else a.performer,
                   if strTruthy t then t else a.title)) :=
  ⟨fun _ _ _ _ _ _ _ _ _ => rfl, fun _ _ _ _ _ _ _ _ _ _ => rfl,
   fun _ _ _ _ _ _ _ _ _ => rfl⟩

/-- C1 counterexample: the claim as stated says an explicitly supplied
override always takes precedence; but constructing an InputMediaVideo
from a Video with width 5 while explicitly supplying the override
width 0 yields a record whose width is the copied 5, not the supplied
0. -/
theorem C1_falsy_override_counterexample :
    (InputMediaVideo.init (MediaArg.obj ⟨"fid", 5, 6, 7⟩) none (some 0)
        none none none none none none none).map InputMediaVideo.width =
      Except.ok (some 5) ∧ (some 5 : Option Int) ≠ some 0 :=
  ⟨rfl, by decide⟩

/-- C2 (amended): serializing immediately after construction yields a
mapping whose keys are exactly the always-present type and media plus the
optional fields actually stored: for the truthiness-guarded arguments
(width, height, duration, thumb, caption, supports_streaming, performer,
title) the key is present exactly when the supplied value is truthy — a
falsy supplied value (0, empty string, False, empty payload) is treated
as unset and omitted; parse_mode, caption_entities and
disable_content_type_detection keys are present exactly when a value
(even a falsy one) was supplied; fields copied from a metadata-object
media are always present. In particular a construction supplying only a
string media yields exactly the type and media keys. -/
theorem C2_serialized_keys :
    (∀ (s : String) (th : Option FilePayload) (c pm : Option String)
        (w h d : Option Int) (ce : Option (List MessageEntity)) (fn : Option String),
      (InputMediaAnimation.init (MediaArg.fileInput (FileInput.str s)) th c pm w h d ce fn).map
          (fun r => keys (InputMediaAnimation.to_dict r)) =
        Except.ok (["type", "media"]
          ++ (if intTruthy w then ["width"] else [])
          ++ (if intTruthy h then ["height"] else [])
          ++ (if intTruthy d then ["duration"] else [])
          ++ (if thumbTruthy th then ["thumb"] else [])
          ++ (if strTruthy c then ["caption"] else [])
          ++ (if pm.isSome then ["parse_mode"] else [])
          ++ (if ce.isSome then ["caption_entities"] else []))) ∧
    (∀ (s : String) (c pm : Option String)
        (ce : Option (List MessageEntity)) (fn : Option String),
      (InputMediaPhoto.init (MediaArg.fileInput (FileInput.str s)) c pm ce fn).map
          (fun r => keys (InputMediaPhoto.to_dict r)) =
        Except.ok (["type", "media"]
          ++ (if strTruthy c then ["caption"] else [])
          ++ (if pm.isSome then ["parse_mode"] else [])
          ++ (if ce.isSome then ["caption_entities"] else []))) ∧
    (∀ (s : String) (c : Option String) (w h d : Option Int) (ss : Option Bool)
        (pm : Option String) (th : Option FilePayload)
        (ce : Option (List MessageEntity)) (fn : Option String),
      (InputMediaVideo.init (MediaArg.fileInput (FileInput.str s)) c w h d ss pm th ce fn).map
          (fun r => keys (InputMediaVideo.to_dict r)) =
        Except.ok (["type", "media"]
          ++ (if intTruthy w then ["width"] else [])
          ++ (if intTruthy h then ["height"] else [])
          ++ (if intTruthy d then ["duration"] else [])
          ++ (if thumbTruthy th then ["thumb"] else [])
          ++ (if strTruthy c then ["caption"] else [])
          ++ (if pm.isSome then ["parse_mode"] else [])
          ++ (if ce.isSome then ["caption_entities"] else [])
          ++ (if boolTruthy ss then ["supports_streaming"] else []))) ∧
    (∀ (s : String) (th : Option FilePayload) (c pm : Option String)
        (d : Option Int) (p t : Option String)
        (ce : Option (List MessageEntity)) (fn : Option String),
      (InputMediaAudio.init (MediaArg.fileInput (FileInput.str s)) th c pm d p t ce fn).map
          (fun r => keys (InputMediaAudio.to_dict r)) =
        Except.ok (["type", "media"]
          ++ (if intTruthy d then ["duration"] else [])
          ++ (if strTruthy p then ["performer"] else [])
          ++ (if strTruthy t then ["title"] else [])
          ++ (if thumbTruthy th then ["thumb"] else [])
          ++ (if strTruthy c then ["caption"] else [])
          ++ (if pm.isSome then ["parse_mode"] else [])
          ++ (if ce.isSome then ["caption_entities"] else []))) ∧
    (∀ (s : String) (th : Option FilePayload) (c pm : Option String)
        (dc : Option Bool) (ce : Option (List MessageEntity)) (fn : Option String),
      (InputMediaDocument.init (MediaArg.fileInput (FileInput.str s)) th c pm dc ce fn).map
          (fun r => keys (InputMediaDocument.to_dict r)) =
        Except.ok (["type", "media"]
          ++ (if thumbTruthy th then ["thumb"] else [])
          ++ (if strTruthy c then ["caption"] else [])
          ++ (if pm.isSome then ["parse_mode"] else [])
          ++ (if ce.isSome then ["caption_entities"] else [])
          ++ (if dc.isSome then ["disable_content_type_detection"] else []))) ∧
    (∀ (a : Animation) (th : Option FilePayload) (c pm : Option String)
        (w h d : Option Int) (ce : Option (List MessageEntity)) (fn : Option String),
      (InputMediaAnimation.init (MediaArg.obj a) th c pm w h d ce fn).map
          (fun r => keys (InputMediaAnimation.to_dict r)) =
        Except.ok (["type", "media"] ++ ["width"] ++ ["height"] ++ ["duration"]
          ++ (if thumbTruthy th then ["thumb"] else [])
          ++ (if strTruthy c then ["caption"] else [])
          ++ (if pm.isSome then ["parse_mode"] else [])
          ++ (if ce.isSome then ["caption_entities"] else []))) ∧
    (∀ (v : Video) (c : Option String) (w h d : Option Int) (ss : Option Bool)
        (pm : Option String) (th : Option FilePayload)
        (ce : Option (List MessageEntity)) (fn : Option String),
      (InputMediaVideo.init (MediaArg.obj v) c w h d ss pm th ce fn).map
          (fun r => keys (InputMediaVideo.to_dict r)) =
        Except.ok (["type", "media"] ++ ["width"] ++ ["height"] ++ ["duration"]
          ++ (if thumbTruthy th then ["thumb"] else [])
          ++ (if strTruthy c then ["caption"] else [])
          ++ (if pm.isSome then ["parse_mode"] else [])
          ++ (if ce.isSome then ["caption_entities"] else [])
          ++ (if boolTruthy ss then ["supports_streaming"] else []))) ∧
    (∀ (a : Audio) (th : Option FilePayload) (c pm : Option String)
        (d : Option Int) (p t : Option String)
        (ce : Option (List MessageEntity)) (fn : Option String),
      (InputMediaAudio.init (MediaArg.obj a) th c pm d p t ce fn).map
          (fun r => keys (InputMediaAudio.to_dict r)) =
        Except.ok (["type", "media"] ++ ["duration"]
          ++ (if strTruthy p then ["performer"]
              else if a.performer.isSome then ["performer"] else [])
          ++ (if strTruthy t then ["title"]
              else if a.title.isSome then ["title"] else [])
          ++ (if thumbTruthy th then ["thumb"] else [])
          ++ (if strTruthy c then ["caption"] else [])
          ++ (if pm.isSome then ["parse_mode"] else [])
          ++ (if ce.isSome then ["caption_entities"] else []))) := by
  refine ⟨?_, ?_, ?_, ?_, ?_, ?_, ?_, ?_⟩
  · intro s th c pm w h d ce fn
    simp only [InputMediaAnimation.init, parse_file_input, Except.map]
    rw [keys_to_dict_anim]
    simp only [InputMediaAnimation.baseToDict, keys_append, keys_typeMedia,
      keys_optInt_override "width" w, keys_optInt_override "height" h,
      keys_optInt_override "duration" d, keys_optAttach_setThumb "thumb" th,
      keys_optStr_override "caption" c, keys_optStr_plain "parse_mode" pm,
      keys_optEntities_plain "caption_entities" ce]
  · intro s c pm ce fn
    simp only [InputMediaPhoto.init, parse_file_input, Except.map]
    rw [keys_to_dict_photo]
    simp only [InputMediaPhoto.baseToDict, keys_append, keys_typeMedia,
      keys_optStr_override "caption" c, keys_optStr_plain "parse_mode" pm,
      keys_optEntities_plain "caption_entities" ce]
  · intro s c w h d ss pm th ce fn
    simp only [InputMediaVideo.init, parse_file_input, Except.map]
    rw [keys_to_dict_video]
    simp only [InputMediaVideo.baseToDict, keys_append, keys_typeMedia,
      keys_optInt_override "width" w, keys_optInt_override "height" h,
      keys_optInt_override "duration" d, keys_optAttach_setThumb "thumb" th,
      keys_optStr_override "caption" c, keys_optStr_plain "parse_mode" pm,
      keys_optEntities_plain "caption_entities" ce,
      keys_optBool_override "supports_streaming" ss]
  · intro s th c pm d p t ce fn
    simp only [InputMediaAudio.init, parse_file_input, Except.map]
    rw [keys_to_dict_audio]
    simp only [InputMediaAudio.baseToDict, keys_append, keys_typeMedia,
      keys_optInt_override "duration" d, keys_optStr_override "performer" p,
      keys_optStr_override "title" t, keys_optAttach_setThumb "thumb" th,
      keys_optStr_override "caption" c, keys_optStr_plain "parse_mode" pm,
      keys_optEntities_plain "caption_entities" ce]
  · intro s th c pm dc ce fn
    simp only [InputMediaDocument.init, parse_file_input, Except.map]
    rw [keys_to_dict_document]
    simp only [InputMediaDocument.baseToDict, keys_append, keys_typeMedia,
      keys_optAttach_setThumb "thumb" th, keys_optStr_override "caption" c,
      keys_optStr_plain "parse_mode" pm,
      keys_optEntities_plain "caption_entities" ce,
      keys_optBool_plain "disable_content_type_detection" dc]
  · intro a th c pm w h d ce fn
    simp only [InputMediaAnimation.init, Except.map]
    rw [keys_to_dict_anim]
    simp only [InputMediaAnimation.baseToDict, keys_append, keys_typeMedia,
      keys_optInt_override_some "width" w a.width,
      keys_optInt_override_some "height" h a.height,
      keys_optInt_override_some "duration" d a.duration,
      keys_optAttach_setThumb "thumb" th, keys_optStr_override "caption" c,
      keys_optStr_plain "parse_mode" pm,
      keys_optEntities_plain "caption_entities" ce]
  · intro v c w h d ss pm th ce fn
    simp only [InputMediaVideo.init, Except.map]
    rw [keys_to_dict_video]
    simp only [InputMediaVideo.baseToDict, keys_append, keys_typeMedia,
      keys_optInt_override_some "width" w v.width,
      keys_optInt_override_some "height" h v.height,
      keys_optInt_override_some "duration" d v.duration,
      keys_optAttach_setThumb "thumb" th, keys_optStr_override "caption" c,
      keys_optStr_plain "parse_mode" pm,
      keys_optEntities_plain "caption_entities" ce,
      keys_optBool_override "supports_streaming" ss]
  · intro a th c pm d p t ce fn
    simp only [InputMediaAudio.init, Except.map]
    rw [keys_to_dict_audio]
    simp only [InputMediaAudio.baseToDict, keys_append, keys_typeMedia,
      keys_optInt_override_some "duration" d a.duration,
      keys_optStr_override_cur "performer" p a.performer,
      keys_optStr_override_cur "title" t a.title,
      keys_optAttach_setThumb "thumb" th, keys_optStr_override "caption" c,
      keys_optStr_plain "parse_mode" pm,
      keys_optEntities_plain "caption_entities" ce]

/-- C2 counterexample: the claim as stated says the mapping keys are
exactly the fields that were supplied; but supplying the caption
argument as the (falsy) empty string to InputMediaPhoto yields a mapping
with only the type and media keys — the supplied caption field is
absent. -/
theorem C2_supplied_falsy_counterexample :
    (InputMediaPhoto.init (MediaArg.fileInput (FileInput.str "m")) (some "") none none none).map
        (fun r => keys (InputMediaPhoto.to_dict r)) = Except.ok ["type", "media"] ∧
      "caption" ∉ (["type", "media"] : List String) :=
  ⟨rfl, by decide⟩

/-- C3 (confirmed): a falsy optional scalar argument is treated as
absent. With a metadata-object media, width=0 / height=0 / duration=0
(and for audio performer="" / title="") leave the values copied from the
object in place; with a string media, falsy arguments (0, empty string,
supports_streaming=False) leave the attribute unset, so the serialized
mapping holds only the type and media keys. -/
theorem C3_falsy_treated_as_absent :
    (∀ (a : Animation) (fn : Option String),
      (InputMediaAnimation.init (MediaArg.obj a) none none none
          (some 0) (some 0) (some 0) none fn).map
          (fun r => (r.width, r.height, r.duration)) =
        Except.ok (some a.width, some a.height, some a.duration)) ∧
    (∀ (v : Video) (fn : Option String),
      (InputMediaVideo.init (MediaArg.obj v) none (some 0) (some 0) (some 0)
          none none none none fn).map
          (fun r => (r.width, r.height, r.duration)) =
        Except.ok (some v.width, some v.height, some v.duration)) ∧
    (∀ (a : Audio) (fn : Option String),
      (InputMediaAudio.init (MediaArg.obj a) none none none (some 0)
          (some "") (some "") none fn).map
          (fun r => (r.duration, r.performer, r.title)) =
        Except.ok (some a.duration, a.performer, a.title)) ∧
    (∀ (s : String) (fn : Option String),
      (InputMediaAnimation.init (MediaArg.fileInput (FileInput.str s)) none
          (some "") none (some 0) (some 0) (some 0) none fn).map
          InputMediaAnimation.to_dict =
        Except.ok [("type", Value.str "animation"), ("media", Value.str s)]) ∧
    (∀ (s : String) (fn : Option String),
      (InputMediaPhoto.init (MediaArg.fileInput (FileInput.str s))
          (some "") none none fn).map InputMediaPhoto.to_dict =
        Except.ok [("type", Value.str "photo"), ("media", Value.str s)]) ∧
    (∀ (s : String) (fn : Option String),
      (InputMediaVideo.init (MediaArg.fileInput (FileInput.str s)) (some "")
          (some 0) (some 0) (some 0) (some false) none none none fn).map
          InputMediaVideo.to_dict =
        Except.ok [("type", Value.str "video"), ("media", Value.str s)]) ∧
    (∀ (s : String) (fn : Option String),
      (InputMediaAudio.init (MediaArg.fileInput (FileInput.str s)) none
          (some "") none (some 0) (some "") (some "") none fn).map
          InputMediaAudio.to_dict =
        Except.ok [("type", Value.str "audio"), ("media", Value.str s)]) ∧
    (∀ (s : String) (fn : Option String),
      (InputMediaDocument.init (MediaArg.fileInput (FileInput.str s)) none
          (some "") none none none fn).map InputMediaDocument.to_dict =
        Except.ok [("type", Value.str "document"), ("media", Value.str s)]) :=
  ⟨fun _ _ => rfl, fun _ _ => rfl, fun _ _ => rfl, fun _ _ => rfl,
   fun _ _ => rfl, fun _ _ => rfl, fun _ _ => rfl, fun _ _ => rfl⟩

/-- C4 (confirmed): for a record of any of the five kinds whose caption
entity list is a non-empty list, the serialized mapping holds under the
caption_entities key the elementwise serialization of that list — same
length, same order (the map of each entity to its own mapping). -/
theorem C4_caption_entities_in_order :
    (∀ (r : InputMediaAnimation) (ces : List MessageEntity),
      r.caption_entities = some ces → ces ≠ [] →
      lookupKey (InputMediaAnimation.to_dict r) "caption_entities" =
          some (Value.arr (ces.map MessageEntity.to_dict)) ∧
        (ces.map MessageEntity.to_dict).length = ces.length) ∧
    (∀ (r : InputMediaPhoto) (ces : List MessageEntity),
      r.caption_entities = some ces → ces ≠ [] →
      lookupKey (InputMediaPhoto.to_dict r) "caption_entities" =
          some (Value.arr (ces.map MessageEntity.to_dict)) ∧
        (ces.map MessageEntity.to_dict).length = ces.length) ∧
    (∀ (r : InputMediaVideo) (ces : List MessageEntity),
      r.caption_entities = some ces → ces ≠ [] →
      lookupKey (InputMediaVideo.to_dict r) "caption_entities" =
          some (Value.arr (ces.map MessageEntity.to_dict)) ∧
        (ces.map MessageEntity.to_dict).length = ces.length) ∧
    (∀ (r : InputMediaAudio) (ces : List MessageEntity),
      r.caption_entities = some ces → ces ≠ [] →
      lookupKey (InputMediaAudio.to_dict r) "caption_entities" =
          some (Value.arr (ces.map MessageEntity.to_dict)) ∧
        (ces.map MessageEntity.to_dict).length = ces.length) ∧
    (∀ (r : InputMediaDocument) (ces : List MessageEntity),
      r.caption_entities = some ces → ces ≠ [] →
      lookupKey (InputMediaDocument.to_dict r) "caption_entities" =
          some (Value.arr (ces.map MessageEntity.to_dict)) ∧
        (ces.map MessageEntity.to_dict).length = ces.length) := by
  refine ⟨?_, ?_, ?_, ?_, ?_⟩ <;>
    (intro r ces hce hne
     cases ces with
     | nil => exact absurd rfl hne
     | cons e es =>
        refine ⟨?_, by simp⟩
        simp only [InputMediaAnimation.to_dict, InputMediaPhoto.to_dict,
          InputMediaVideo.to_dict, InputMediaAudio.to_dict,
          InputMediaDocument.to_dict, InputMedia.to_dict]
        rw [hce]
        rw [if_pos (show ceTruthy (some (e :: es)) = true from rfl)]
        rw [lookupKey_setItem_self]
        rfl)

/-- C4 witness: a concrete photo record carrying one caption entity. -/
theorem C4_witness :
    lookupKey (InputMediaPhoto.to_dict ⟨"photo", MediaRef.str "m", none, none,
        some [⟨"bold", 0, 2⟩]⟩) "caption_entities" =
      some (Value.arr (([⟨"bold", 0, 2⟩] : List MessageEntity).map MessageEntity.to_dict)) ∧
    (([⟨"bold", 0, 2⟩] : List MessageEntity).map MessageEntity.to_dict).length =
      ([⟨"bold", 0, 2⟩] : List MessageEntity).length :=
  C4_caption_entities_in_order.2.1
    ⟨"photo", MediaRef.str "m", none, none, some [⟨"bold", 0, 2⟩]⟩
    [⟨"bold", 0, 2⟩] rfl (by decide)

theorem lookupKey_to_dict_type (ce : Option (List MessageEntity))
    (d : List (String × Value)) :
    lookupKey (InputMedia.to_dict ce d) "type" = lookupKey d "type" :=
  lookupKey_to_dict_ne ce d "type" rfl

theorem lookupKey_to_dict_media (ce : Option (List MessageEntity))
    (d : List (String × Value)) :
    lookupKey (InputMedia.to_dict ce d) "media" = lookupKey d "media" :=
  lookupKey_to_dict_ne ce d "media" rfl

/-- C5 (confirmed): a string passed as the media argument (remote file
identifier or HTTP URL) is stored unmodified as the record's media
field, and the serialized mapping's media entry is that identical
string, for all five kinds. -/
theorem C5_string_media_unmodified :
    (∀ (s : String) (th : Option FilePayload) (c pm : Option String)
        (w h d : Option Int) (ce : Option (List MessageEntity)) (fn : Option String),
      (InputMediaAnimation.init (MediaArg.fileInput (FileInput.str s)) th c pm w h d ce fn).map
          (fun r => (r.media, lookupKey (InputMediaAnimation.to_dict r) "media")) =
        Except.ok (MediaRef.str s, some (Value.str s))) ∧
    (∀ (s : String) (c pm : Option String)
        (ce : Option (List MessageEntity)) (fn : Option String),
      (InputMediaPhoto.init (MediaArg.fileInput (FileInput.str s)) c pm ce fn).map
          (fun r => (r.media, lookupKey (InputMediaPhoto.to_dict r) "media")) =
        Except.ok (MediaRef.str s, some (Value.str s))) ∧
    (∀ (s : String) (c : Option String) (w h d : Option Int) (ss : Option Bool)
        (pm : Option String) (th : Option FilePayload)
        (ce : Option (List MessageEntity)) (fn : Option String),
      (InputMediaVideo.init (MediaArg.fileInput (FileInput.str s)) c w h d ss pm th ce fn).map
          (fun r => (r.media, lookupKey (InputMediaVideo.to_dict r) "media")) =
        Except.ok (MediaRef.str s, some (Value.str s))) ∧
    (∀ (s : String) (th : Option FilePayload) (c pm : Option String)
        (d : Option Int) (p t : Option String)
        (ce : Option (List MessageEntity)) (fn : Option String),
      (InputMediaAudio.init (MediaArg.fileInput (FileInput.str s)) th c pm d p t ce fn).map
          (fun r => (r.media, lookupKey (InputMediaAudio.to_dict r) "media")) =
        Except.ok (MediaRef.str s, some (Value.str s))) ∧
    (∀ (s : String) (th : Option FilePayload) (c pm : Option String)
        (dc : Option Bool) (ce : Option (List MessageEntity)) (fn : Option String),
      (InputMediaDocument.init (MediaArg.fileInput (FileInput.str s)) th c pm dc ce fn).map
          (fun r => (r.media, lookupKey (InputMediaDocument.to_dict r) "media")) =
        Except.ok (MediaRef.str s, some (Value.str s))) := by
  refine ⟨?_, ?_, ?_, ?_, ?_⟩
  · intro s th c pm w h d ce fn
    simp only [InputMediaAnimation.init, parse_file_input, Except.map,
      InputMediaAnimation.to_dict]
    rw [lookupKey_to_dict_media]
    rfl
  · intro s c pm ce fn
    simp only [InputMediaPhoto.init, parse_file_input, Except.map,
      InputMediaPhoto.to_dict]
    rw [lookupKey_to_dict_media]
    rfl
  · intro s c w h d ss pm th ce fn
    simp only [InputMediaVideo.init, parse_file_input, Except.map,
      InputMediaVideo.to_dict]
    rw [lookupKey_to_dict_media]
    rfl
  · intro s th c pm d p t ce fn
    simp only [InputMediaAudio.init, parse_file_input, Except.map,
      InputMediaAudio.to_dict]
    rw [lookupKey_to_dict_media]
    rfl
  · intro s th c pm dc ce fn
    simp only [InputMediaDocument.init, parse_file_input, Except.map,
      InputMediaDocument.to_dict]
    rw [lookupKey_to_dict_media]
    rfl

/-- C6 (confirmed): a byte payload passed as media produces an
attachment-tagged InputFile reference — a constructor of `MediaRef`
distinct from the plain-string one — and the serialized mapping's media
entry is the attachment-tagged reference value, never a plain string
value (so the raw bytes are not embedded as the media string of the
JSON mapping), for all five kinds. -/
theorem C6_bytes_media_attachment_tagged :
    (∀ (f : InputFile) (s : String), MediaRef.file f ≠ MediaRef.str s) ∧
    (∀ (f : InputFile) (s : String), Value.attach f ≠ Value.str s) ∧
    (∀ (b : List Nat) (th : Option FilePayload) (c pm : Option String)
        (w h d : Option Int) (ce : Option (List MessageEntity)) (fn : Option String),
      (InputMediaAnimation.init (MediaArg.fileInput (FileInput.payload (FilePayload.bytes b)))
          th c pm w h d ce fn).map
          (fun r => (r.media, lookupKey (InputMediaAnimation.to_dict r) "media")) =
        Except.ok (MediaRef.file ⟨FilePayload.bytes b, fn, true⟩,
                   some (Value.attach ⟨FilePayload.bytes b, fn, true⟩))) ∧
    (∀ (b : List Nat) (c pm : Option String)
        (ce : Option (List MessageEntity)) (fn : Option String),
      (InputMediaPhoto.init (MediaArg.fileInput (FileInput.payload (FilePayload.bytes b)))
          c pm ce fn).map
          (fun r => (r.media, lookupKey (InputMediaPhoto.to_dict r) "media")) =
        Except.ok (MediaRef.file ⟨FilePayload.bytes b, fn, true⟩,
                   some (Value.attach ⟨FilePayload.bytes b, fn, true⟩))) ∧
    (∀ (b : List Nat) (c : Option String) (w h d : Option Int) (ss : Option Bool)
        (pm : Option String) (th : Option FilePayload)
        (ce : Option (List MessageEntity)) (fn : Option String),
      (InputMediaVideo.init (MediaArg.fileInput (FileInput.payload (FilePayload.bytes b)))
          c w h d ss pm th ce fn).map
          (fun r => (r.media, lookupKey (InputMediaVideo.to_dict r) "media")) =
        Except.ok (MediaRef.file ⟨FilePayload.bytes b, fn, true⟩,
                   some (Value.attach ⟨FilePayload.bytes b, fn, true⟩))) ∧
    (∀ (b : List Nat) (th : Option FilePayload) (c pm : Option String)
        (d : Option Int) (p t : Option String)
        (ce : Option (List MessageEntity)) (fn : Option String),
      (InputMediaAudio.init (MediaArg.fileInput (FileInput.payload (FilePayload.bytes b)))
          th c pm d p t ce fn).map
          (fun r => (r.media, lookupKey (InputMediaAudio.to_dict r) "media")) =
        Except.ok (MediaRef.file ⟨FilePayload.bytes b, fn, true⟩,
                   some (Value.attach ⟨FilePayload.bytes b, fn, true⟩))) ∧
    (∀ (b : List Nat) (th : Option FilePayload) (c pm : Option String)
        (dc : Option Bool) (ce : Option (List MessageEntity)) (fn : Option String),
      (InputMediaDocument.init (MediaArg.fileInput (FileInput.payload (FilePayload.bytes b)))
          th c pm dc ce fn).map
          (fun r => (r.media, lookupKey (InputMediaDocument.to_dict r) "media")) =
        Except.ok (MediaRef.file ⟨FilePayload.bytes b, fn, true⟩,
                   some (Value.attach ⟨FilePayload.bytes b, fn, true⟩))) := by
  refine ⟨fun f s h => MediaRef.noConfusion h, fun f s h => Value.noConfusion h,
    ?_, ?_, ?_, ?_, ?_⟩
  · intro b th c pm w h d ce fn
    simp only [InputMediaAnimation.init, parse_file_input, Except.map,
      InputMediaAnimation.to_dict]
    rw [lookupKey_to_dict_media]
    rfl
  · intro b c pm ce fn
    simp only [InputMediaPhoto.init, parse_file_input, Except.map,
      InputMediaPhoto.to_dict]
    rw [lookupKey_to_dict_media]
    rfl
  · intro b c w h d ss pm th ce fn
    simp only [InputMediaVideo.init, parse_file_input, Except.map,
      InputMediaVideo.to_dict]
    rw [lookupKey_to_dict_media]
    rfl
  · intro b th c pm d p t ce fn
    simp only [InputMediaAudio.init, parse_file_input, Except.map,
      InputMediaAudio.to_dict]
    rw [lookupKey_to_dict_media]
    rfl
  · intro b th c pm dc ce fn
    simp only [InputMediaDocument.init, parse_file_input, Except.map,
      InputMediaDocument.to_dict]
    rw [lookupKey_to_dict_media]
    rfl

/-- C6 witness: a concrete byte payload for a photo, whose media field is
the attachment-tagged reference and differs from a plain string. -/
theorem C6_witness :
    (InputMediaPhoto.init (MediaArg.fileInput (FileInput.payload (FilePayload.bytes [7, 8])))
        none none none (some "f.png")).map
        (fun r => (r.media, lookupKey (InputMediaPhoto.to_dict r) "media")) =
      Except.ok (MediaRef.file ⟨FilePayload.bytes [7, 8], some "f.png", true⟩,
                 some (Value.attach ⟨FilePayload.bytes [7, 8], some "f.png", true⟩)) ∧
    MediaRef.file ⟨FilePayload.bytes [7, 8], some "f.png", true⟩ ≠ MediaRef.str "raw" :=
  ⟨C6_bytes_media_attachment_tagged.2.2.2.1 [7, 8] none none none (some "f.png"),
   C6_bytes_media_attachment_tagged.1 ⟨FilePayload.bytes [7, 8], some "f.png", true⟩ "raw"⟩

/-- C7 (confirmed): whenever construction succeeds, the serialized
mapping contains a type key holding the kind discriminant string
("animation", "photo", "video", "audio", "document"), regardless of the
other constructor arguments: the serialized type entry agrees with the
constant discriminant on every successful construction. -/
theorem C7_type_discriminant :
    (∀ (m : MediaArg Animation) (th : Option FilePayload) (c pm : Option String)
        (w h d : Option Int) (ce : Option (List MessageEntity)) (fn : Option String),
      (InputMediaAnimation.init m th c pm w h d ce fn).map
          (fun r => lookupKey (InputMediaAnimation.to_dict r) "type") =
        (InputMediaAnimation.init m th c pm w h d ce fn).map
          (fun _ => some (Value.str "animation"))) ∧
    (∀ (m : MediaArg PhotoSize) (c pm : Option String)
        (ce : Option (List MessageEntity)) (fn : Option String),
      (InputMediaPhoto.init m c pm ce fn).map
          (fun r => lookupKey (InputMediaPhoto.to_dict r) "type") =
        (InputMediaPhoto.init m c pm ce fn).map
          (fun _ => some (Value.str "photo"))) ∧
    (∀ (m : MediaArg Video) (c : Option String) (w h d : Option Int)
        (ss : Option Bool) (pm : Option String) (th : Option FilePayload)
        (ce : Option (List MessageEntity)) (fn : Option String),
      (InputMediaVideo.init m c w h d ss pm th ce fn).map
          (fun r => lookupKey (InputMediaVideo.to_dict r) "type") =
        (InputMediaVideo.init m c w h d ss pm th ce fn).map
          (fun _ => some (Value.str "video"))) ∧
    (∀ (m : MediaArg Audio) (th : Option FilePayload) (c pm : Option String)
        (d : Option Int) (p t : Option String)
        (ce : Option (List MessageEntity)) (fn : Option String),
      (InputMediaAudio.init m th c pm d p t ce fn).map
          (fun r => lookupKey (InputMediaAudio.to_dict r) "type") =
        (InputMediaAudio.init m th c pm d p t ce fn).map
          (fun _ => some (Value.str "audio"))) ∧
    (∀ (m : MediaArg Document) (th : Option FilePayload) (c pm : Option String)
        (dc : Option Bool) (ce : Option (List MessageEntity)) (fn : Option String),
      (InputMediaDocument.init m th c pm dc ce fn).map
          (fun r => lookupKey (InputMediaDocument.to_dict r) "type") =
        (InputMediaDocument.init m th c pm dc ce fn).map
          (fun _ => some (Value.str "document"))) := by
  refine ⟨?_, ?_, ?_, ?_, ?_⟩
  · intro m th c pm w h d ce fn
    cases m with
    | obj a =>
        simp only [InputMediaAnimation.init, Except.map, InputMediaAnimation.to_dict]
        rw [lookupKey_to_dict_type]
        rfl
    | fileInput fi =>
        cases fi with
        | str s =>
            simp only [InputMediaAnimation.init, parse_file_input, Except.map,
              InputMediaAnimation.to_dict]
            rw [lookupKey_to_dict_type]
            rfl
        | payload p =>
            simp only [InputMediaAnimation.init, parse_file_input, Except.map,
              InputMediaAnimation.to_dict]
            rw [lookupKey_to_dict_type]
            rfl
        | invalid dsc => rfl
  · intro m c pm ce fn
    cases m with
    | obj a =>
        simp only [InputMediaPhoto.init, parse_file_input, Except.map,
          InputMediaPhoto.to_dict]
        rw [lookupKey_to_dict_type]
        rfl
    | fileInput fi =>
        cases fi with
        | str s =>
            simp only [InputMediaPhoto.init, parse_file_input, Except.map,
              InputMediaPhoto.to_dict]
            rw [lookupKey_to_dict_type]
            rfl
        | payload p =>
            simp only [InputMediaPhoto.init, parse_file_input, Except.map,
              InputMediaPhoto.to_dict]
            rw [lookupKey_to_dict_type]
            rfl
        | invalid dsc => rfl
  · intro m c w h d ss pm th ce fn
    cases m with
    | obj v =>
        simp only [InputMediaVideo.init, Except.map, InputMediaVideo.to_dict]
        rw [lookupKey_to_dict_type]
        rfl
    | fileInput fi =>
        cases fi with
        | str s =>
            simp only [InputMediaVideo.init, parse_file_input, Except.map,
              InputMediaVideo.to_dict]
            rw [lookupKey_to_dict_type]
            rfl
        | payload p =>
            simp only [InputMediaVideo.init, parse_file_input, Except.map,
              InputMediaVideo.to_dict]
            rw [lookupKey_to_dict_type]
            rfl
        | invalid dsc => rfl
  · intro m th c pm d p t ce fn
    cases m with
    | obj a =>
        simp only [InputMediaAudio.init, Except.map, InputMediaAudio.to_dict]
        rw [lookupKey_to_dict_type]
        rfl
    | fileInput fi =>
        cases fi with
        | str s =>
            simp only [InputMediaAudio.init, parse_file_input, Except.map,
              InputMediaAudio.to_dict]
            rw [lookupKey_to_dict_type]
            rfl
        | payload q =>
            simp only [InputMediaAudio.init, parse_file_input, Except.map,
              InputMediaAudio.to_dict]
            rw [lookupKey_to_dict_type]
            rfl
        | invalid dsc => rfl
  · intro m th c pm dc ce fn
    cases m with
    | obj a =>
        simp only [InputMediaDocument.init, parse_file_input, Except.map,
          InputMediaDocument.to_dict]
        rw [lookupKey_to_dict_type]
        rfl
    | fileInput fi =>
        cases fi with
        | str s =>
            simp only [InputMediaDocument.init, parse_file_input, Except.map,
              InputMediaDocument.to_dict]
            rw [lookupKey_to_dict_type]
            rfl
        | payload p =>
            simp only [InputMediaDocument.init, parse_file_input, Except.map,
              InputMediaDocument.to_dict]
            rw [lookupKey_to_dict_type]
            rfl
        | invalid dsc => rfl

/-- C8 (confirmed against the spec-modelled input parsing): construction
succeeds exactly on well-typed media inputs — a string, a local payload
(bytes, handle or path), or the recognized metadata object — and fails
immediately with a type error on an unrecognized input; the `Except`
result means no partially constructed record is ever produced. -/
theorem C8_fail_fast_on_invalid_media :
    (∀ (fi : FileInput) (th : Option FilePayload) (c pm : Option String)
        (w h d : Option Int) (ce : Option (List MessageEntity)) (fn : Option String),
      isOkB (InputMediaAnimation.init (MediaArg.fileInput fi) th c pm w h d ce fn) =
        (match fi with | FileInput.invalid _ => false | _ => true)) ∧
    (∀ (a : Animation) (th : Option FilePayload) (c pm : Option String)
        (w h d : Option Int) (ce : Option (List MessageEntity)) (fn : Option String),
      isOkB (InputMediaAnimation.init (MediaArg.obj a) th c pm w h d ce fn) = true) ∧
    (∀ (fi : FileInput) (c pm : Option String)
        (ce : Option (List MessageEntity)) (fn : Option String),
      isOkB (InputMediaPhoto.init (MediaArg.fileInput fi) c pm ce fn) =
        (match fi with | FileInput.invalid _ => false | _ => true)) ∧
    (∀ (a : PhotoSize) (c pm : Option String)
        (ce : Option (List MessageEntity)) (fn : Option String),
      isOkB (InputMediaPhoto.init (MediaArg.obj a) c pm ce fn) = true) ∧
    (∀ (fi : FileInput) (c : Option String) (w h d : Option Int) (ss : Option Bool)
        (pm : Option String) (th : Option FilePayload)
        (ce : Option (List MessageEntity)) (fn : Option String),
      isOkB (InputMediaVideo.init (MediaArg.fileInput fi) c w h d ss pm th ce fn) =
        (match fi with | FileInput.invalid _ => false | _ => true)) ∧
    (∀ (v : Video) (c : Option String) (w h d : Option Int) (ss : Option Bool)
        (pm : Option String) (th : Option FilePayload)
        (ce : Option (List MessageEntity)) (fn : Option String),
      isOkB (InputMediaVideo.init (MediaArg.obj v) c w h d ss pm th ce fn) = true) ∧
    (∀ (fi : FileInput) (th : Option FilePayload) (c pm : Option String)
        (d : Option Int) (p t : Option String)
        (ce : Option (List MessageEntity)) (fn : Option String),
      isOkB (InputMediaAudio.init (MediaArg.fileInput fi) th c pm d p t ce fn) =
        (match fi with | FileInput.invalid _ => false | _ => true)) ∧
    (∀ (a : Audio) (th : Option FilePayload) (c pm : Option String)
        (d : Option Int) (p t : Option String)
        (ce : Option (List MessageEntity)) (fn : Option String),
      isOkB (InputMediaAudio.init (MediaArg.obj a) th c pm d p t ce fn) = true) ∧
    (∀ (fi : FileInput) (th : Option FilePayload) (c pm : Option String)
        (dc : Option Bool) (ce : Option (List MessageEntity)) (fn : Option String),
      isOkB (InputMediaDocument.init (MediaArg.fileInput fi) th c pm dc ce fn) =
        (match fi with | FileInput.invalid _ => false | _ => true)) ∧
    (∀ (a : Document) (th : Option FilePayload) (c pm : Option String)
        (dc : Option Bool) (ce : Option (List MessageEntity)) (fn : Option String),
      isOkB (InputMediaDocument.init (MediaArg.obj a) th c pm dc ce fn) = true) := by
  refine ⟨?_, ?_, ?_, ?_, ?_, ?_, ?_, ?_, ?_, ?_⟩
  · intro fi th c pm w h d ce fn
    cases fi <;> rfl
  · intro a th c pm w h d ce fn
    rfl
  · intro fi c pm ce fn
    cases fi <;> rfl
  · intro a c pm ce fn
    rfl
  · intro fi c w h d ss pm th ce fn
    cases fi <;> rfl
  · intro v c w h d ss pm th ce fn
    rfl
  · intro fi th c pm d p t ce fn
    cases fi <;> rfl
  · intro a th c pm d p t ce fn
    rfl
  · intro fi th c pm dc ce fn
    cases fi <;> rfl
  · intro a th c pm dc ce fn
    rfl

/-- C9 (confirmed): serialization is side-effect-free — run as a
state-passing operation it returns the record unchanged, and a second
run on the returned record produces the same mapping as the first. -/
theorem C9_to_dict_side_effect_free :
    (∀ r : InputMediaAnimation,
      (runToDict InputMediaAnimation.to_dict r).fst = r ∧
      (runToDict InputMediaAnimation.to_dict
          (runToDict InputMediaAnimation.to_dict r).fst).snd =
        (runToDict InputMediaAnimation.to_dict r).snd) ∧
    (∀ r : InputMediaPhoto,
      (runToDict InputMediaPhoto.to_dict r).fst = r ∧
      (runToDict InputMediaPhoto.to_dict
          (runToDict InputMediaPhoto.to_dict r).fst).snd =
        (runToDict InputMediaPhoto.to_dict r).snd) ∧
    (∀ r : InputMediaVideo,
      (runToDict InputMediaVideo.to_dict r).fst = r ∧
      (runToDict InputMediaVideo.to_dict
          (runToDict InputMediaVideo.to_dict r).fst).snd =
        (runToDict InputMediaVideo.to_dict r).snd) ∧
    (∀ r : InputMediaAudio,
      (runToDict InputMediaAudio.to_dict r).fst = r ∧
      (runToDict InputMediaAudio.to_dict
          (runToDict InputMediaAudio.to_dict r).fst).snd =
        (runToDict InputMediaAudio.to_dict r).snd) ∧
    (∀ r : InputMediaDocument,
      (runToDict InputMediaDocument.to_dict r).fst = r ∧
      (runToDict InputMediaDocument.to_dict
          (runToDict InputMediaDocument.to_dict r).fst).snd =
        (runToDict InputMediaDocument.to_dict r).snd) :=
  ⟨fun _ => ⟨rfl, rfl⟩, fun _ => ⟨rfl, rfl⟩, fun _ => ⟨rfl, rfl⟩,
   fun _ => ⟨rfl, rfl⟩, fun _ => ⟨rfl, rfl⟩⟩

theorem containsKey_setItem_self (d : List (String × Value)) (k : String) (v : Value) :
    containsKey (setItem d k v) k = true := by
  induction d with
  | nil => simp [setItem, containsKey]
  | cons p rest ih => cases p with
    | mk k1 v1 =>
      by_cases h1 : (k1 == k) = true
      · simp [setItem, h1, containsKey]
      · simp [setItem, h1, containsKey, ih]

theorem containsKey_to_dict_ce (ce : Option (List MessageEntity))
    (d : List (String × Value))
    (hbase : containsKey d "caption_entities" = ce.isSome) :
    containsKey (InputMedia.to_dict ce d) "caption_entities" = ce.isSome := by
  unfold InputMedia.to_dict
  by_cases hce : ceTruthy ce = true
  · rw [if_pos hce, containsKey_setItem_self, isSome_of_ceTruthy ce hce]
  · rw [if_neg hce, hbase]

theorem lookupKey_typeMedia (a b : Value) :
    lookupKey [("type", a), ("media", b)] "caption_entities" = none := rfl

theorem lookupKey_base_anim (r : InputMediaAnimation) :
    lookupKey (InputMediaAnimation.baseToDict r) "caption_entities" =
      r.caption_entities.map Value.entities := by
  unfold InputMediaAnimation.baseToDict
  simp only [lookupKey_append, lookupKey_typeMedia,
    lookupKey_optInt_ne "width" "caption_entities" r.width rfl,
    lookupKey_optInt_ne "height" "caption_entities" r.height rfl,
    lookupKey_optInt_ne "duration" "caption_entities" r.duration rfl,
    lookupKey_optAttach_ne "thumb" "caption_entities" r.thumb rfl,
    lookupKey_optStr_ne "caption" "caption_entities" r.caption rfl,
    lookupKey_optStr_ne "parse_mode" "caption_entities" r.parse_mode rfl,
    lookupKey_optEntities_self]
  rfl

theorem lookupKey_base_photo (r : InputMediaPhoto) :
    lookupKey (InputMediaPhoto.baseToDict r) "caption_entities" =
      r.caption_entities.map Value.entities := by
  unfold InputMediaPhoto.baseToDict
  simp only [lookupKey_append, lookupKey_typeMedia,
    lookupKey_optStr_ne "caption" "caption_entities" r.caption rfl,
    lookupKey_optStr_ne "parse_mode" "caption_entities" r.parse_mode rfl,
    lookupKey_optEntities_self]
  rfl

theorem lookupKey_base_video (r : InputMediaVideo) :
    lookupKey (InputMediaVideo.baseToDict r) "caption_entities" =
      r.caption_entities.map Value.entities := by
  unfold InputMediaVideo.baseToDict
  simp only [lookupKey_append, lookupKey_typeMedia,
    lookupKey_optInt_ne "width" "caption_entities" r.width rfl,
    lookupKey_optInt_ne "height" "caption_entities" r.height rfl,
    lookupKey_optInt_ne "duration" "caption_entities" r.duration rfl,
    lookupKey_optAttach_ne "thumb" "caption_entities" r.thumb rfl,
    lookupKey_optStr_ne "caption" "caption_entities" r.caption rfl,
    lookupKey_optStr_ne "parse_mode" "caption_entities" r.parse_mode rfl,
    lookupKey_optBool_ne "supports_streaming" "caption_entities" r.supports_streaming rfl,
    lookupKey_optEntities_self]
  cases r.caption_entities <;> rfl

theorem lookupKey_base_audio (r : InputMediaAudio) :
    lookupKey (InputMediaAudio.baseToDict r) "caption_entities" =
      r.caption_entities.map Value.entities := by
  unfold InputMediaAudio.baseToDict
  simp only [lookupKey_append, lookupKey_typeMedia,
    lookupKey_optInt_ne "duration" "caption_entities" r.duration rfl,
    lookupKey_optStr_ne "performer" "caption_entities" r.performer rfl,
    lookupKey_optStr_ne "title" "caption_entities" r.title rfl,
    lookupKey_optAttach_ne "thumb" "caption_entities" r.thumb rfl,
    lookupKey_optStr_ne "caption" "caption_entities" r.caption rfl,
    lookupKey_optStr_ne "parse_mode" "caption_entities" r.parse_mode rfl,
    lookupKey_optEntities_self]
  rfl

theorem lookupKey_base_document (r : InputMediaDocument) :
    lookupKey (InputMediaDocument.baseToDict r) "caption_entities" =
      r.caption_entities.map Value.entities := by
  unfold InputMediaDocument.baseToDict
  simp only [lookupKey_append, lookupKey_typeMedia,
    lookupKey_optAttach_ne "thumb" "caption_entities" r.thumb rfl,
    lookupKey_optStr_ne "caption" "caption_entities" r.caption rfl,
    lookupKey_optStr_ne "parse_mode" "caption_entities" r.parse_mode rfl,
    lookupKey_optBool_ne "disable_content_type_detection" "caption_entities"
      r.disable_content_type_detection rfl,
    lookupKey_optEntities_self]
  cases r.caption_entities <;> rfl

theorem lookupKey_to_dict_ce (ce : Option (List MessageEntity))
    (d : List (String × Value))
    (hbase : lookupKey d "caption_entities" = ce.map Value.entities) :
    lookupKey (InputMedia.to_dict ce d) "caption_entities" = ceDictValue ce := by
  unfold InputMedia.to_dict
  cases ce with
  | none =>
      rw [if_neg (by simp [ceTruthy])]
      rw [hbase]
      rfl
  | some l =>
      cases l with
      | nil =>
          rw [if_neg (by simp [ceTruthy])]
          rw [hbase]
          rfl
      | cons e es =>
          rw [if_pos (show ceTruthy (some (e :: es)) = true from rfl)]
          rw [lookupKey_setItem_self]
          rfl

/-- C10 (amended): the caption_entities field is always assigned at
construction (to the argument, possibly none), and the serialized
mapping contains the caption_entities key exactly when the field is set
(non-None): a non-empty list serializes to the elementwise entity
serializations, while a set-but-empty list still produces the key (with
the empty entity list as value), so a record constructed with the empty
list does not serialize identically to one constructed with the field
omitted. -/
theorem C10_caption_entities_field_and_key :
    (∀ (m : MediaArg Animation) (th : Option FilePayload) (c pm : Option String)
        (w h d : Option Int) (ce : Option (List MessageEntity)) (fn : Option String),
      (InputMediaAnimation.init m th c pm w h d ce fn).map
          (fun r => r.caption_entities) =
        (InputMediaAnimation.init m th c pm w h d ce fn).map (fun _ => ce)) ∧
    (∀ (m : MediaArg PhotoSize) (c pm : Option String)
        (ce : Option (List MessageEntity)) (fn : Option String),
      (InputMediaPhoto.init m c pm ce fn).map (fun r => r.caption_entities) =
        (InputMediaPhoto.init m c pm ce fn).map (fun _ => ce)) ∧
    (∀ (m : MediaArg Video) (c : Option String) (w h d : Option Int)
        (ss : Option Bool) (pm : Option String) (th : Option FilePayload)
        (ce : Option (List MessageEntity)) (fn : Option String),
      (InputMediaVideo.init m c w h d ss pm th ce fn).map
          (fun r => r.caption_entities) =
        (InputMediaVideo.init m c w h d ss pm th ce fn).map (fun _ => ce)) ∧
    (∀ (m : MediaArg Audio) (th : Option FilePayload) (c pm : Option String)
        (d : Option Int) (p t : Option String)
        (ce : Option (List MessageEntity)) (fn : Option String),
      (InputMediaAudio.init m th c pm d p t ce fn).map
          (fun r => r.caption_entities) =
        (InputMediaAudio.init m th c pm d p t ce fn).map (fun _ => ce)) ∧
    (∀ (m : MediaArg Document) (th : Option FilePayload) (c pm : Option String)
        (dc : Option Bool) (ce : Option (List MessageEntity)) (fn : Option String),
      (InputMediaDocument.init m th c pm dc ce fn).map
          (fun r => r.caption_entities) =
        (InputMediaDocument.init m th c pm dc ce fn).map (fun _ => ce)) ∧
    (∀ r : InputMediaAnimation,
      containsKey (InputMediaAnimation.to_dict r) "caption_entities" =
          r.caption_entities.isSome ∧
        lookupKey (InputMediaAnimation.to_dict r) "caption_entities" =
          ceDictValue r.caption_entities) ∧
    (∀ r : InputMediaPhoto,
      containsKey (InputMediaPhoto.to_dict r) "caption_entities" =
          r.caption_entities.isSome ∧
        lookupKey (InputMediaPhoto.to_dict r) "caption_entities" =
          ceDictValue r.caption_entities) ∧
    (∀ r : InputMediaVideo,
      containsKey (InputMediaVideo.to_dict r) "caption_entities" =
          r.caption_entities.isSome ∧
        lookupKey (InputMediaVideo.to_dict r) "caption_entities" =
          ceDictValue r.caption_entities) ∧
    (∀ r : InputMediaAudio,
      containsKey (InputMediaAudio.to_dict r) "caption_entities" =
          r.caption_entities.isSome ∧
        lookupKey (InputMediaAudio.to_dict r) "caption_entities" =
          ceDictValue r.caption_entities) ∧
    (∀ r : InputMediaDocument,
      containsKey (InputMediaDocument.to_dict r) "caption_entities" =
          r.caption_entities.isSome ∧
        lookupKey (InputMediaDocument.to_dict r) "caption_entities" =
          ceDictValue r.caption_entities) := by
  refine ⟨?_, ?_, ?_, ?_, ?_, ?_, ?_, ?_, ?_, ?_⟩
  · intro m th c pm w h d ce fn
    cases m with
    | obj a => rfl
    | fileInput fi => cases fi <;> rfl
  · intro m c pm ce fn
    cases m with
    | obj a => rfl
    | fileInput fi => cases fi <;> rfl
  · intro m c w h d ss pm th ce fn
    cases m with
    | obj v => rfl
    | fileInput fi => cases fi <;> rfl
  · intro m th c pm d p t ce fn
    cases m with
    | obj a => rfl
    | fileInput fi => cases fi <;> rfl
  · intro m th c pm dc ce fn
    cases m with
    | obj a => rfl
    | fileInput fi => cases fi <;> rfl
  · intro r
    exact ⟨containsKey_to_dict_ce _ _ (containsKey_base_anim r),
           lookupKey_to_dict_ce _ _ (lookupKey_base_anim r)⟩
  · intro r
    exact ⟨containsKey_to_dict_ce _ _ (containsKey_base_photo r),
           lookupKey_to_dict_ce _ _ (lookupKey_base_photo r)⟩
  · intro r
    exact ⟨containsKey_to_dict_ce _ _ (containsKey_base_video r),
           lookupKey_to_dict_ce _ _ (lookupKey_base_video r)⟩
  · intro r
    exact ⟨containsKey_to_dict_ce _ _ (containsKey_base_audio r),
           lookupKey_to_dict_ce _ _ (lookupKey_base_audio r)⟩
  · intro r
    exact ⟨containsKey_to_dict_ce _ _ (containsKey_base_document r),
           lookupKey_to_dict_ce _ _ (lookupKey_base_document r)⟩

/-- C10 counterexample: the claim as stated says the caption_entities
key is present iff the field holds a non-empty list, and that an
empty-list construction serializes identically to an omitted one; but a
photo constructed with the empty entity list serializes with a
caption_entities key (holding the empty entity list), while the omitted
construction has no such key. -/
theorem C10_empty_list_counterexample :
    (InputMediaPhoto.init (MediaArg.fileInput (FileInput.str "m")) none none
        (some []) none).map InputMediaPhoto.to_dict =
      Except.ok [("type", Value.str "photo"), ("media", Value.str "m"),
                 ("caption_entities", Value.entities [])] ∧
    (InputMediaPhoto.init (MediaArg.fileInput (FileInput.str "m")) none none
        none none).map InputMediaPhoto.to_dict =
      Except.ok [("type", Value.str "photo"), ("media", Value.str "m")] ∧
    containsKey [("type", Value.str "photo"), ("media", Value.str "m"),
                 ("caption_entities", Value.entities [])] "caption_entities" = true ∧
    containsKey [("type", Value.str "photo"), ("media", Value.str "m")]
        "caption_entities" = false :=
  ⟨rfl, rfl, rfl, rfl⟩
